import Mathlib

/-!
Shallow embedding of `pyquil/api/_persistent_qvm.py` (PersistentQVM / AsyncJob
lifecycle over an opaque-token RPC protocol), together with theorems checking
the natural-language specification against it.

Conventions of the embedding:
* Python exceptions are values of `PyErr`; a method that can raise returns
  `Except PyErr _`.
* Every method additionally returns the list of RPCs it issued to the
  transport, in order; the transport (`ForestConnection`) is modelled by a
  `Server` record of pure response functions.
* A Python attribute that may be *unassigned* (reading it raises
  `AttributeError`) is modelled by an outer `Option`: `none` means the
  attribute was never assigned, `some v` means it holds `v`.  In particular
  `connection : Option (Option Server)`: `some none` is Python's
  `self.connection = None` (the closed state).
* External collaborators that are not part of this file's source
  (`validate_*`, `ForestConnection`, `Program` helpers,
  `qvm_ng_run_program_payload`) are modelled from the spec; each such
  definition carries a doc comment saying so.
-/

/-- The kinds of Python exceptions the embedded code can raise or propagate.
`usageError` is the spec's dedicated use-after-release error; it is included
in the error universe so that statements can compare against it. -/
inductive PyErr
  | typeError
  | valueError
  | attributeError
  | validationError
  | connectionError
  | qvmVersionMismatch
  | qvmNotRunning
  | usageError

deriving instance DecidableEq, Repr for PyErr

/-- Characters stripped by Python's `int(str)` conversion (ASCII whitespace). -/
def isPySpace (ch : Char) : Bool :=
  ch == ' ' || ch == '\t' || ch == '\n' || ch == '\r' || ch == '\x0b' || ch == '\x0c'

/-- Digit run of a Python integer literal: nonempty ASCII digits, with single
underscores allowed only between digits.  `prevDigit` records whether the
previous character was a digit; `acc` is the value accumulated so far. -/
def pyDigits : List Char → Nat → Bool → Option Nat
  | [], acc, true => some acc
  | [], _, false => none
  | ch :: rest, acc, prevDigit =>
    if ch.isDigit then
      pyDigits rest (acc * 10 + (ch.toNat - 48)) true
    else if ch == '_' && prevDigit then
      pyDigits rest acc false
    else
      none

/-- Model of Python's `int(s)` on strings (ASCII scope): strip surrounding
whitespace, allow one optional sign, then a digit run; `none` models the
`ValueError` raised on malformed input. -/
def pyIntOfString (s : String) : Option Int :=
  let cs := ((s.toList.dropWhile isPySpace).reverse.dropWhile isPySpace).reverse
  match cs with
  | '-' :: rest => (pyDigits rest 0 false).map fun n => -(n : Int)
  | '+' :: rest => (pyDigits rest 0 false).map fun n => (n : Int)
  | _ => (pyDigits cs 0 false).map fun n => (n : Int)

/-- Model of Python's `s.split(".")` on the character list: split at every
occurrence of `'.'`, keeping empty segments, with `acc` the (reversed)
characters of the segment currently being read. -/
def splitDotAux : List Char → List Char → List (List Char)
  | [], acc => [acc.reverse]
  | ch :: rest, acc =>
    if ch == '.' then
      acc.reverse :: splitDotAux rest []
    else
      splitDotAux rest (ch :: acc)

/-- Model of Python's `version.split(".")`. -/
def pySplitDot (s : String) : List String :=
  (splitDotAux s.toList []).map fun l => ⟨l⟩

/-- `map(int, segments)` combined with tuple unpacking: all segments must
parse, and the caller pattern-matches on the resulting list.  Any `int`
failure makes the whole conversion fail (Python raises `ValueError`). -/
def parseSegments : List String → Option (List Int)
  | [] => some []
  | s :: rest =>
    match pyIntOfString s, parseSegments rest with
    | some i, some l => some (i :: l)
    | _, _ => none

/-- `check_qvm_ng_version`: split the version string on `"."`, convert the
pieces with `int`, unpack as `major, minor, patch` (a segment count other
than three, like a non-numeric segment, raises `ValueError`), and reject
`major == 1 and minor < 11` with `QVMVersionMismatch`. -/
def check_qvm_ng_version (version : String) : Except PyErr Unit :=
  match parseSegments (pySplitDot version) with
  | some [major, minor, _patch] =>
    if major = 1 ∧ minor < 11 then
      .error .qvmVersionMismatch
    else
      .ok ()
  | _ => .error .valueError

/-- Modelled from the spec: the core treats a program as an opaque value plus
a derived mapping of memory-region names to the indices written (spec scope
section); `Program` carries exactly that derived mapping. -/
structure Program where
  declaredWrites : List (String × List Nat)

deriving instance DecidableEq, Repr for Program

/-- Modelled from the spec: `get_classical_addresses_from_program` returns the
mapping of memory-region names to the indices the program's declared writes
touch. -/
def get_classical_addresses_from_program (p : Program) : List (String × List Nat) :=
  p.declaredWrites

/-- A Python argument that is either a `Program` or some non-program value
(for the `isinstance` checks in `run_program` / `run_program_async`). -/
inductive PyVal
  | prog (p : Program)
  | other

deriving instance DecidableEq, Repr for PyVal

/-- The keyword arguments of the run-program RPC
(`_qvm_ng_run_program` / `qvm_ng_run_program_payload`), in source order. -/
structure RunPayload where
  quil_program : Program
  qvm_token : String
  simulation_method : Option String
  allocation_method : Option String
  classical_addresses : List (String × List Nat)
  measurement_noise : Option (List Rat)
  gate_noise : Option (List Rat)
  random_seed : Option Int

deriving instance DecidableEq, Repr for RunPayload

/-- Modelled from the spec: a SubRequest is a tagged payload naming the RPC
method to run plus its parameters; it must contain a recognized `"type"` tag
(spec data model). -/
structure SubRequest where
  rpcType : String
  payload : RunPayload

deriving instance DecidableEq, Repr for SubRequest

/-- One RPC issued to the transport, with the data the client sends. -/
inductive RPC
  | getVersionInfo
  | createQvm (sim alloc : String) (numQubits : Int)
      (mnoise gnoise : Option (List Rat))
  | deleteQvm (token : String)
  | qvmInfo (token : String)
  | readMemory (token : String) (addrs : List (String × List Nat))
  | writeMemory (token : String) (contents : List (String × List Int))
  | resume (token : String)
  | runProgram (payload : RunPayload)
  | createJob (sub : SubRequest)
  | deleteJob (token : String)

deriving instance DecidableEq, Repr for RPC

/-- `true` exactly on the token-issuing create RPCs. -/
def RPC.isCreate : RPC → Bool
  | .createQvm .. => true
  | .createJob .. => true
  | _ => false

/-- Modelled from the spec: the transport collaborator (`ForestConnection`),
as a record of pure responses for the RPC operations the claims need.
`versionResp = .error ()` models a `ConnectionError` from the version probe. -/
structure Server where
  versionResp : Except Unit String
  qvmToken : String
  jobToken : String
  runResult : RunPayload → List (String × List Int)
  qvmInfoResp : List (String × String)
  readResp : List (String × List Nat) → List (String × List Int)

/-- Modelled from the spec: `validate_num_qubits` — the qubit count must be a
positive integer; failure is local and prevents any RPC. -/
def validate_num_qubits (n : Int) : Except PyErr Unit :=
  if 0 < n then .ok () else .error .validationError

/-- Modelled from the spec: the recognized simulation-method variants. -/
def recognizedSimulationMethods : List String := ["pure-state", "full-density"]

/-- Modelled from the spec: `validate_simulation_method` — the value must be
one of the recognized enumerated variants. -/
def validate_simulation_method (m : String) : Except PyErr Unit :=
  if m ∈ recognizedSimulationMethods then .ok () else .error .validationError

/-- Modelled from the spec: the recognized allocation-method variants. -/
def recognizedAllocationMethods : List String := ["native", "foreign"]

/-- Modelled from the spec: `validate_allocation_method` — the value must be
one of the recognized enumerated variants. -/
def validate_allocation_method (m : String) : Except PyErr Unit :=
  if m ∈ recognizedAllocationMethods then .ok () else .error .validationError

/-- Modelled from the spec: `validate_noise_probabilities` — `None` is valid;
otherwise exactly 3 probabilities, each within `[0, 1]`. -/
def validate_noise_probabilities : Option (List Rat) → Except PyErr Unit
  | none => .ok ()
  | some v =>
    if v.length = 3 ∧ ∀ x ∈ v, 0 ≤ x ∧ x ≤ 1 then .ok () else .error .validationError

/-- Modelled from the spec: the job sub-request type tags the service
recognizes. -/
def recognizedJobTypes : List String := ["run-program"]

/-- Modelled from the spec: `validate_job_sub_request` — the descriptor must
carry a recognized `"type"` tag (its per-method parameters are present by
construction in this typed embedding). -/
def validate_job_sub_request (sub : SubRequest) : Except PyErr Unit :=
  if sub.rpcType ∈ recognizedJobTypes then .ok () else .error .validationError

/-- Modelled from the spec: `qvm_ng_run_program_payload` builds the async
sub-request descriptor with the same parameters as the synchronous
run-program RPC, tagged for asynchronous execution. -/
def qvm_ng_run_program_payload (quil_program : Program) (qvm_token : String)
    (simulation_method allocation_method : Option String)
    (classical_addresses : List (String × List Nat))
    (measurement_noise gate_noise : Option (List Rat))
    (random_seed : Option Int) : SubRequest :=
  ⟨"run-program",
   ⟨quil_program, qvm_token, simulation_method, allocation_method,
    classical_addresses, measurement_noise, gate_noise, random_seed⟩⟩

/-- Modelled from the spec: executing a SubRequest synchronously via the
equivalent run-program path applies the transport's run-program operation to
the sub-request's parameters (spec testable properties). -/
def execSubRequestSync (srv : Server) (sub : SubRequest) : List (String × List Int) :=
  srv.runResult sub.payload

/-- The `random_seed` argument of `PersistentQVM.__init__`: Python `None`, an
`int`, or a value of any other type. -/
inductive PySeed
  | nullSeed
  | intSeed (i : Int)
  | otherSeed

deriving instance DecidableEq, Repr for PySeed

/-- The attribute store of an `AsyncJob` object.  Outer `Option` = attribute
assigned or not; `connection = some none` is Python `self.connection = None`. -/
structure AsyncJob where
  connection : Option (Option Server) := none
  token : Option String := none

/-- `AsyncJob.get_version_info`: `self.connection._qvm_ng_get_version_info()`. -/
def AsyncJob.get_version_info (j : AsyncJob) : Except PyErr String × List RPC :=
  match j.connection with
  | some (some srv) =>
    match srv.versionResp with
    | .ok v => (.ok v, [RPC.getVersionInfo])
    | .error _ => (.error .connectionError, [RPC.getVersionInfo])
  | _ => (.error .attributeError, [])

/-- `AsyncJob.connect`: probe the version and check it, turning a
`ConnectionError` (and only that) into `QVMNotRunning`. -/
def AsyncJob.connect (j : AsyncJob) : Except PyErr Unit × List RPC :=
  match j.get_version_info with
  | (.ok v, tr) =>
    match check_qvm_ng_version v with
    | .ok () => (.ok (), tr)
    | .error e => (.error e, tr)
  | (.error .connectionError, tr) => (.error .qvmNotRunning, tr)
  | (.error e, tr) => (.error e, tr)

/-- `AsyncJob.__init__`: validate the sub-request, default the connection
(`ForestConnection()` modelled by `dflt`), store it, `connect`, then issue the
create-job RPC and store the returned token.  On an exception the returned
state is the partially-initialized object the exception leaves behind. -/
def AsyncJob.init (sub_request : SubRequest) (connection : Option Server)
    (dflt : Server) : Except PyErr Unit × AsyncJob × List RPC :=
  match validate_job_sub_request sub_request with
  | .error e => (.error e, {}, [])
  | .ok () =>
    let conn := connection.getD dflt
    let j1 : AsyncJob := { connection := some (some conn), token := none }
    match j1.connect with
    | (.error e, tr) => (.error e, j1, tr)
    | (.ok (), tr) =>
      (.ok (), { j1 with token := some conn.jobToken },
       tr ++ [RPC.createJob sub_request])

/-- `AsyncJob.close`: `if self.connection is not None:` delete the job and set
`self.connection = None`.  Reading an unassigned attribute raises
`AttributeError`. -/
def AsyncJob.close (j : AsyncJob) : Except PyErr Unit × AsyncJob × List RPC :=
  match j.connection with
  | none => (.error .attributeError, j, [])
  | some none => (.ok (), j, [])
  | some (some _) =>
    match j.token with
    | none => (.error .attributeError, j, [])
    | some t => (.ok (), { j with connection := some none }, [RPC.deleteJob t])

/-- The attribute store of a `PersistentQVM` object, in assignment order.
Outer `Option` = attribute assigned or not; `connection = some none` is
Python `self.connection = None` (the closed state). -/
structure PersistentQVM where
  num_qubits : Option Int := none
  simulation_method : Option String := none
  allocation_method : Option String := none
  measurement_noise : Option (Option (List Rat)) := none
  gate_noise : Option (Option (List Rat)) := none
  random_seed : Option (Option Int) := none
  connection : Option (Option Server) := none
  token : Option String := none

/-- `PersistentQVM.get_version_info`:
`self.connection._qvm_ng_get_version_info()`. -/
def PersistentQVM.get_version_info (st : PersistentQVM) :
    Except PyErr String × List RPC :=
  match st.connection with
  | some (some srv) =>
    match srv.versionResp with
    | .ok v => (.ok v, [RPC.getVersionInfo])
    | .error _ => (.error .connectionError, [RPC.getVersionInfo])
  | _ => (.error .attributeError, [])

/-- `PersistentQVM.connect`: probe the version and check it, turning a
`ConnectionError` (and only that) into `QVMNotRunning`. -/
def PersistentQVM.connect (st : PersistentQVM) : Except PyErr Unit × List RPC :=
  match st.get_version_info with
  | (.ok v, tr) =>
    match check_qvm_ng_version v with
    | .ok () => (.ok (), tr)
    | .error e => (.error e, tr)
  | (.error .connectionError, tr) => (.error .qvmNotRunning, tr)
  | (.error e, tr) => (.error e, tr)

/-- Tail of `PersistentQVM.__init__` after the `random_seed` assignment:
default the connection, store it, `connect`, then issue the create-qvm RPC
and store the returned token. -/
def PersistentQVM.initFinish (st : PersistentQVM) (connection : Option Server)
    (dflt : Server) (sim alloc : String) (n : Int)
    (mn gn : Option (List Rat)) : Except PyErr Unit × PersistentQVM × List RPC :=
  let conn := connection.getD dflt
  let st2 := { st with connection := some (some conn) }
  match st2.connect with
  | (.error e, tr) => (.error e, st2, tr)
  | (.ok (), tr) =>
    (.ok (), { st2 with token := some conn.qvmToken },
     tr ++ [RPC.createQvm sim alloc n mn gn])

/-- `PersistentQVM.__init__`: run the five validators, store the config
attributes, check and store `random_seed` (raising `TypeError` on a bad
seed), then connect and create (`initFinish`).  On an exception the returned
state is the partially-initialized object the exception leaves behind. -/
def PersistentQVM.init (num_qubits : Int) (connection : Option Server)
    (simulation_method allocation_method : String)
    (measurement_noise gate_noise : Option (List Rat))
    (random_seed : PySeed) (dflt : Server) :
    Except PyErr Unit × PersistentQVM × List RPC :=
  let st0 : PersistentQVM := {}
  match validate_num_qubits num_qubits with
  | .error e => (.error e, st0, [])
  | .ok () =>
  match validate_simulation_method simulation_method with
  | .error e => (.error e, st0, [])
  | .ok () =>
  match validate_allocation_method allocation_method with
  | .error e => (.error e, st0, [])
  | .ok () =>
  match validate_noise_probabilities measurement_noise with
  | .error e => (.error e, st0, [])
  | .ok () =>
  match validate_noise_probabilities gate_noise with
  | .error e => (.error e, st0, [])
  | .ok () =>
  let st1 := { st0 with
    num_qubits := some num_qubits,
    simulation_method := some simulation_method,
    allocation_method := some allocation_method,
    measurement_noise := some measurement_noise,
    gate_noise := some gate_noise }
  match random_seed with
  | .nullSeed =>
    PersistentQVM.initFinish { st1 with random_seed := some none }
      connection dflt simulation_method allocation_method num_qubits
      measurement_noise gate_noise
  | .intSeed i =>
    if 0 ≤ i then
      PersistentQVM.initFinish { st1 with random_seed := some (some i) }
        connection dflt simulation_method allocation_method num_qubits
        measurement_noise gate_noise
    else
      (.error .typeError, st1, [])
  | .otherSeed => (.error .typeError, st1, [])

/-- `PersistentQVM.close`: `if self.connection is not None:` delete the
session and set `self.connection = None`.  Reading an unassigned attribute
raises `AttributeError`. -/
def PersistentQVM.close (st : PersistentQVM) :
    Except PyErr Unit × PersistentQVM × List RPC :=
  match st.connection with
  | none => (.error .attributeError, st, [])
  | some none => (.ok (), st, [])
  | some (some _) =>
    match st.token with
    | none => (.error .attributeError, st, [])
    | some t => (.ok (), { st with connection := some none }, [RPC.deleteQvm t])

/-- `PersistentQVM.get_qvm_info`: `self.connection._qvm_ng_qvm_info(self.token)`. -/
def PersistentQVM.get_qvm_info (st : PersistentQVM) :
    Except PyErr (List (String × String)) × List RPC :=
  match st.connection with
  | some (some srv) =>
    match st.token with
    | some t => (.ok srv.qvmInfoResp, [RPC.qvmInfo t])
    | none => (.error .attributeError, [])
  | _ => (.error .attributeError, [])

/-- `PersistentQVM.read_memory`:
`self.connection._qvm_ng_read_memory(self.token, classical_addresses)`. -/
def PersistentQVM.read_memory (st : PersistentQVM)
    (classical_addresses : List (String × List Nat)) :
    Except PyErr (List (String × List Int)) × List RPC :=
  match st.connection with
  | some (some srv) =>
    match st.token with
    | some t => (.ok (srv.readResp classical_addresses),
                 [RPC.readMemory t classical_addresses])
    | none => (.error .attributeError, [])
  | _ => (.error .attributeError, [])

/-- `PersistentQVM.write_memory`:
`self.connection._qvm_ng_write_memory(self.token, memory_contents)`. -/
def PersistentQVM.write_memory (st : PersistentQVM)
    (memory_contents : List (String × List Int)) :
    Except PyErr Unit × List RPC :=
  match st.connection with
  | some (some _) =>
    match st.token with
    | some t => (.ok (), [RPC.writeMemory t memory_contents])
    | none => (.error .attributeError, [])
  | _ => (.error .attributeError, [])

/-- `PersistentQVM.resume`: `self.connection._qvm_ng_resume(self.token)`. -/
def PersistentQVM.resume (st : PersistentQVM) : Except PyErr Unit × List RPC :=
  match st.connection with
  | some (some _) =>
    match st.token with
    | some t => (.ok (), [RPC.resume t])
    | none => (.error .attributeError, [])
  | _ => (.error .attributeError, [])

/-- `PersistentQVM.run_program`: `isinstance` check, derive the classical
addresses from the program, then issue the run RPC with the session token,
the derived addresses, the configured seed, and `None` for both methods and
both noise fields.  None of these steps assigns an attribute, so the session
state is unchanged by construction. -/
def PersistentQVM.run_program (st : PersistentQVM) (quil_program : PyVal) :
    Except PyErr (List (String × List Int)) × List RPC :=
  match quil_program with
  | .other => (.error .typeError, [])
  | .prog p =>
    let classical_addresses := get_classical_addresses_from_program p
    match st.connection with
    | some (some srv) =>
      match st.token, st.random_seed with
      | some tok, some seed =>
        let payload : RunPayload :=
          ⟨p, tok, none, none, classical_addresses, none, none, seed⟩
        (.ok (srv.runResult payload), [RPC.runProgram payload])
      | _, _ => (.error .attributeError, [])
    | _ => (.error .attributeError, [])

/-- `PersistentQVM.run_program_async`: `isinstance` check, derive the
classical addresses, build the sub-request via `qvm_ng_run_program_payload`
(reading `self.token` / `self.random_seed`), then construct
`AsyncJob(sub_request, connection=self.connection)`.  Note that when the
session is closed (`self.connection is None`) the `AsyncJob` constructor
substitutes a fresh default connection `dflt`. -/
def PersistentQVM.run_program_async (st : PersistentQVM) (quil_program : PyVal)
    (dflt : Server) : Except PyErr AsyncJob × List RPC :=
  match quil_program with
  | .other => (.error .typeError, [])
  | .prog p =>
    let classical_addresses := get_classical_addresses_from_program p
    match st.token, st.random_seed with
    | some tok, some seed =>
      let sub_request := qvm_ng_run_program_payload p tok none none
        classical_addresses none none seed
      match st.connection with
      | none => (.error .attributeError, [])
      | some connOpt =>
        match AsyncJob.init sub_request connOpt dflt with
        | (.ok (), j, tr) => (.ok j, tr)
        | (.error e, _, tr) => (.error e, tr)
    | _, _ => (.error .attributeError, [])

/-- A concrete healthy transport, used by witnesses. -/
def demoServer : Server :=
  { versionResp := .ok ("1.11.0"),
    qvmToken := "qvm-token-1",
    jobToken := "job-token-1",
    runResult := fun _ => [("ro", [0, 1])],
    qvmInfoResp := [("num-qubits", "2")],
    readResp := fun _ => [("ro", [0])] }

/-- A concrete transport whose version probe raises `ConnectionError`. -/
def downServer : Server :=
  { versionResp := .error (),
    qvmToken := "qvm-token-2",
    jobToken := "job-token-2",
    runResult := fun _ => [],
    qvmInfoResp := [],
    readResp := fun _ => [] }

/-- A concrete transport reporting an unsupported version. -/
def oldServer : Server :=
  { versionResp := .ok ("1.10.0"),
    qvmToken := "qvm-token-3",
    jobToken := "job-token-3",
    runResult := fun _ => [],
    qvmInfoResp := [],
    readResp := fun _ => [] }

/-- A concrete program whose declared writes touch `{"ro": [0, 1]}`. -/
def demoProgram : Program := ⟨[("ro", [0, 1])]⟩

/-- A concrete active session against `demoServer`. -/
def demoPQVM : PersistentQVM :=
  { num_qubits := some 2,
    simulation_method := some ("pure-state"),
    allocation_method := some ("native"),
    measurement_noise := some none,
    gate_noise := some none,
    random_seed := some none,
    connection := some (some demoServer),
    token := some ("qvm-token-1") }

/-- `demoPQVM` after a successful `close`. -/
def demoClosedPQVM : PersistentQVM := { demoPQVM with connection := some none }

/-- A concrete active async job against `demoServer`. -/
def demoAJ : AsyncJob :=
  { connection := some (some demoServer), token := some ("job-token-1") }

/-- `demoAJ` after a successful `close`. -/
def demoClosedAJ : AsyncJob := { demoAJ with connection := some none }



theorem parseSegments_length {l : List String} {out : List Int}
    (h : parseSegments l = some out) : out.length = l.length := by
  induction l generalizing out with
  | nil =>
    simp [parseSegments] at h
    simp [← h]
  | cons s rest ih =>
    unfold parseSegments at h
    rcases h1 : pyIntOfString s with _ | i <;> rw [h1] at h
    · simp at h
    · rcases h2 : parseSegments rest with _ | l2 <;> rw [h2] at h
      · simp at h
      · simp at h
        simp [← h, ih h2]

theorem parseSegments_none_of_mem {l : List String} {s : String}
    (hmem : s ∈ l) (hnone : pyIntOfString s = none) : parseSegments l = none := by
  induction l with
  | nil => cases hmem
  | cons t rest ih =>
    unfold parseSegments
    rcases List.mem_cons.mp hmem with rfl | hmem
    · rw [hnone]
    · rw [ih hmem]
      rcases pyIntOfString t with _ | i <;> rfl

/-- Claim C1: for an active `PersistentQVM` (and an active `AsyncJob`),
calling `close` twice in a row issues exactly one delete-session
(resp. delete-job) RPC: the first call releases the resource and the second
call is a no-op that issues no RPC and raises no error. -/
theorem close_twice_single_delete
    (st : PersistentQVM) (srv : Server) (tok : String)
    (hc : st.connection = some (some srv)) (ht : st.token = some tok)
    (j : AsyncJob) (srv2 : Server) (jtok : String)
    (hjc : j.connection = some (some srv2)) (hjt : j.token = some jtok) :
    st.close = (.ok (), { st with connection := some none }, [RPC.deleteQvm tok]) ∧
    ({ st with connection := some none } : PersistentQVM).close
      = (.ok (), { st with connection := some none }, []) ∧
    j.close = (.ok (), { j with connection := some none }, [RPC.deleteJob jtok]) ∧
    ({ j with connection := some none } : AsyncJob).close
      = (.ok (), { j with connection := some none }, []) := by
  refine ⟨?_, ?_, ?_, ?_⟩ <;>
    simp [PersistentQVM.close, AsyncJob.close, hc, ht, hjc, hjt]

theorem close_twice_single_delete_witness :
    demoPQVM.connection = some (some demoServer) ∧
    demoPQVM.token = some ("qvm-token-1") ∧
    demoAJ.connection = some (some demoServer) ∧
    demoAJ.token = some ("job-token-1") ∧
    (demoPQVM.close
        = (.ok (), { demoPQVM with connection := some none }, [RPC.deleteQvm ("qvm-token-1")]) ∧
      ({ demoPQVM with connection := some none } : PersistentQVM).close
        = (.ok (), { demoPQVM with connection := some none }, []) ∧
      demoAJ.close
        = (.ok (), { demoAJ with connection := some none }, [RPC.deleteJob ("job-token-1")]) ∧
      ({ demoAJ with connection := some none } : AsyncJob).close
        = (.ok (), { demoAJ with connection := some none }, [])) :=
  ⟨rfl, rfl, rfl, rfl,
   close_twice_single_delete demoPQVM demoServer ("qvm-token-1") rfl rfl
     demoAJ demoServer ("job-token-1") rfl rfl⟩

/-- Claim C5 counterexample: after a successful `close` of the concrete
active session `demoPQVM`, the stored token attribute still holds
`"qvm-token-1"` — it is not absent/null as the claim states. -/
theorem close_token_not_cleared_counterexample :
    demoPQVM.close.1 = .ok () ∧
    demoPQVM.close.2.1.token = some ("qvm-token-1") ∧
    demoPQVM.close.2.1.token ≠ none :=
  ⟨rfl, rfl, by simp [PersistentQVM.close, demoPQVM]⟩

/-- Claim C5 (amended): a successful `close` of an active `PersistentQVM`
clears the stored connection handle (setting it to Python `None`), which
permanently disables further RPCs through this object; the token attribute
itself is not cleared and retains its value. -/
theorem close_clears_connection_not_token
    (st : PersistentQVM) (srv : Server) (tok : String)
    (hc : st.connection = some (some srv)) (ht : st.token = some tok) :
    st.close = (.ok (), { st with connection := some none }, [RPC.deleteQvm tok]) ∧
    ({ st with connection := some none } : PersistentQVM).token = some tok ∧
    ({ st with connection := some none } : PersistentQVM).connection = some none ∧
    ({ st with connection := some none } : PersistentQVM).close
      = (.ok (), { st with connection := some none }, []) := by
  refine ⟨?_, ?_, ?_, ?_⟩ <;> simp [PersistentQVM.close, hc, ht]

theorem close_clears_connection_not_token_witness :
    demoPQVM.connection = some (some demoServer) ∧
    demoPQVM.token = some ("qvm-token-1") ∧
    (demoPQVM.close
        = (.ok (), { demoPQVM with connection := some none }, [RPC.deleteQvm ("qvm-token-1")]) ∧
      ({ demoPQVM with connection := some none } : PersistentQVM).token = some ("qvm-token-1") ∧
      ({ demoPQVM with connection := some none } : PersistentQVM).connection = some none ∧
      ({ demoPQVM with connection := some none } : PersistentQVM).close
        = (.ok (), { demoPQVM with connection := some none }, [])) :=
  ⟨rfl, rfl, close_clears_connection_not_token demoPQVM demoServer ("qvm-token-1") rfl rfl⟩

/-- Claim C6: on an active `PersistentQVM`, `run_program` derives the
classical-memory addresses from the program's declared memory regions and
issues exactly one run RPC carrying the session token, exactly those
addresses and the configured random seed, with the simulation-method,
allocation-method and both noise fields passed as `None`, returning the
RPC's mapping of region name to values. -/
theorem run_program_payload_exact
    (st : PersistentQVM) (srv : Server) (tok : String) (seed : Option Int)
    (p : Program)
    (hc : st.connection = some (some srv)) (ht : st.token = some tok)
    (hs : st.random_seed = some seed) :
    st.run_program (.prog p) =
      (.ok (srv.runResult
         ⟨p, tok, none, none, get_classical_addresses_from_program p, none, none, seed⟩),
       [RPC.runProgram
         ⟨p, tok, none, none, get_classical_addresses_from_program p, none, none, seed⟩]) := by
  simp [PersistentQVM.run_program, get_classical_addresses_from_program, hc, ht, hs]

theorem run_program_payload_exact_witness :
    demoPQVM.connection = some (some demoServer) ∧
    demoPQVM.token = some ("qvm-token-1") ∧
    demoPQVM.random_seed = some none ∧
    demoPQVM.run_program (.prog demoProgram) =
      (.ok [("ro", [0, 1])],
       [RPC.runProgram
         ⟨demoProgram, "qvm-token-1", none, none, [("ro", [0, 1])], none, none, none⟩]) :=
  ⟨rfl, rfl, rfl,
   run_program_payload_exact demoPQVM demoServer ("qvm-token-1") none demoProgram rfl rfl rfl⟩

/-- Claim C9: for an argument that is not a `Program`, both `run_program` and
`run_program_async` raise a caller-side `TypeError` (a local failure, not a
network error) and issue no RPC; the session state is untouched (these
operations never assign attributes, as their types show). -/
theorem non_program_argument_type_error (st : PersistentQVM) (dflt : Server) :
    st.run_program .other = (.error .typeError, []) ∧
    st.run_program_async .other dflt = (.error .typeError, []) :=
  ⟨rfl, rfl⟩

/-- Claim C3: for version strings of the form `major.minor.patch` with three
dot-separated non-negative integer segments, the check fails with a
version-mismatch error if and only if `major = 1` and `minor < 11`, and
succeeds on every other major line; a malformed string (a segment `int`
cannot parse, or a segment count other than three) fails with `ValueError`,
distinct from the version-too-low failure. -/
theorem version_check_policy :
    (∀ s a b c ma mb mc, pySplitDot s = [a, b, c] →
       pyIntOfString a = some ma → pyIntOfString b = some mb →
       pyIntOfString c = some mc → 0 ≤ ma → 0 ≤ mb → 0 ≤ mc →
       (check_qvm_ng_version s = .error .qvmVersionMismatch ↔ (ma = 1 ∧ mb < 11)) ∧
       (¬(ma = 1 ∧ mb < 11) → check_qvm_ng_version s = .ok ())) ∧
    (∀ s, ((pySplitDot s).length ≠ 3 ∨ ∃ seg ∈ pySplitDot s, pyIntOfString seg = none) →
       check_qvm_ng_version s = .error .valueError) ∧
    PyErr.valueError ≠ PyErr.qvmVersionMismatch := by
  refine ⟨?_, ?_, by simp⟩
  · intro s a b c ma mb mc hsplit hpa hpb hpc _ _ _
    unfold check_qvm_ng_version
    rw [hsplit]
    simp only [parseSegments, hpa, hpb, hpc]
    by_cases hcond : ma = 1 ∧ mb < 11
    · simp [hcond]
    · simp [hcond]
  · intro s hmal
    unfold check_qvm_ng_version
    rcases hmal with hlen | ⟨seg, hmem, hnone⟩
    · rcases hseg : parseSegments (pySplitDot s) with _ | l
      · rfl
      · have hl : l.length ≠ 3 := by
          rw [parseSegments_length hseg]; exact hlen
        rcases l with _ | ⟨x, _ | ⟨y, _ | ⟨z, _ | _⟩⟩⟩ <;> simp_all
    · rw [parseSegments_none_of_mem hmem hnone]

theorem version_check_policy_witness :
    pySplitDot ("1.10.0") = ["1", "10", "0"] ∧
    pyIntOfString ("1") = some 1 ∧
    (check_qvm_ng_version ("1.10.0") = .error .qvmVersionMismatch ∧
     check_qvm_ng_version ("1.11.0") = .ok () ∧
     check_qvm_ng_version ("2.0.0") = .ok () ∧
     check_qvm_ng_version ("1.x.0") = .error .valueError ∧
     check_qvm_ng_version ("1.11") = .error .valueError) :=
  ⟨rfl, rfl,
   (version_check_policy.1 ("1.10.0") ("1") ("10") ("0") 1 10 0 rfl rfl rfl rfl
      (by norm_num) (by norm_num) (by norm_num)).1.mpr ⟨rfl, by norm_num⟩,
   (version_check_policy.1 ("1.11.0") ("1") ("11") ("0") 1 11 0 rfl rfl rfl rfl
      (by norm_num) (by norm_num) (by norm_num)).2 (by norm_num),
   (version_check_policy.1 ("2.0.0") ("2") ("0") ("0") 2 0 0 rfl rfl rfl rfl
      (by norm_num) (by norm_num) (by norm_num)).2 (by norm_num),
   version_check_policy.2.1 ("1.x.0") (Or.inr ⟨"x", by decide, rfl⟩),
   version_check_policy.2.1 ("1.11") (Or.inl (by decide))⟩

/-- Claim C2 counterexample: on the concrete closed session `demoClosedPQVM`,
`run_program_async` does not fail at all (let alone with a use-after-release
error): it builds a payload around the stale token, constructs an `AsyncJob`
over a fresh default connection, and issues two RPCs. -/
theorem post_close_counterexample :
    demoClosedPQVM.run_program_async (.prog demoProgram) demoServer =
      (.ok { connection := some (some demoServer), token := some ("job-token-1") },
       [RPC.getVersionInfo,
        RPC.createJob (qvm_ng_run_program_payload demoProgram ("qvm-token-1") none none
          [("ro", [0, 1])] none none none)]) ∧
    [RPC.getVersionInfo,
     RPC.createJob (qvm_ng_run_program_payload demoProgram ("qvm-token-1") none none
       [("ro", [0, 1])] none none none)] ≠ ([] : List RPC) ∧
    demoClosedPQVM.get_qvm_info.1 ≠ .error .usageError :=
  ⟨rfl, by simp, by simp [PersistentQVM.get_qvm_info, demoClosedPQVM, demoPQVM]⟩

/-- Claim C2 (amended): after a successful `close`, `get_qvm_info`,
`read_memory`, `write_memory`, `resume` and `run_program` fail with an
attribute error on the absent connection — not a dedicated use-after-release
error — and issue no RPC; `run_program_async`, however, does not fail: it
builds the payload with the stale token and constructs an `AsyncJob` over a
fresh default connection, issuing RPCs. -/
theorem post_close_operations
    (st : PersistentQVM) (tok : String) (seed : Option Int) (p : Program)
    (addrs : List (String × List Nat)) (contents : List (String × List Int))
    (dflt : Server) (v : String)
    (hc : st.connection = some none) (ht : st.token = some tok)
    (hs : st.random_seed = some seed)
    (hv : dflt.versionResp = .ok v) (hok : check_qvm_ng_version v = .ok ()) :
    st.get_qvm_info = (.error .attributeError, []) ∧
    st.read_memory addrs = (.error .attributeError, []) ∧
    st.write_memory contents = (.error .attributeError, []) ∧
    st.resume = (.error .attributeError, []) ∧
    st.run_program (.prog p) = (.error .attributeError, []) ∧
    PyErr.attributeError ≠ PyErr.usageError ∧
    st.run_program_async (.prog p) dflt =
      (.ok { connection := some (some dflt), token := some dflt.jobToken },
       [RPC.getVersionInfo,
        RPC.createJob (qvm_ng_run_program_payload p tok none none
          (get_classical_addresses_from_program p) none none seed)]) := by
  refine ⟨?_, ?_, ?_, ?_, ?_, by simp, ?_⟩ <;>
    simp [PersistentQVM.get_qvm_info, PersistentQVM.read_memory,
      PersistentQVM.write_memory, PersistentQVM.resume, PersistentQVM.run_program,
      PersistentQVM.run_program_async, AsyncJob.init, AsyncJob.connect,
      AsyncJob.get_version_info, validate_job_sub_request, recognizedJobTypes,
      qvm_ng_run_program_payload, hc, ht, hs, hv, hok]

theorem post_close_operations_witness :
    demoClosedPQVM.connection = some none ∧
    demoClosedPQVM.token = some ("qvm-token-1") ∧
    demoClosedPQVM.random_seed = some none ∧
    demoServer.versionResp = .ok ("1.11.0") ∧
    check_qvm_ng_version ("1.11.0") = .ok () ∧
    (demoClosedPQVM.get_qvm_info = (.error .attributeError, []) ∧
      demoClosedPQVM.read_memory [] = (.error .attributeError, []) ∧
      demoClosedPQVM.write_memory [] = (.error .attributeError, []) ∧
      demoClosedPQVM.resume = (.error .attributeError, []) ∧
      demoClosedPQVM.run_program (.prog demoProgram) = (.error .attributeError, []) ∧
      PyErr.attributeError ≠ PyErr.usageError ∧
      demoClosedPQVM.run_program_async (.prog demoProgram) demoServer =
        (.ok { connection := some (some demoServer), token := some ("job-token-1") },
         [RPC.getVersionInfo,
          RPC.createJob (qvm_ng_run_program_payload demoProgram ("qvm-token-1") none none
            [("ro", [0, 1])] none none none)])) :=
  ⟨rfl, rfl, rfl, rfl, rfl,
   post_close_operations demoClosedPQVM ("qvm-token-1") none demoProgram [] []
     demoServer ("1.11.0") rfl rfl rfl rfl rfl⟩

/-- Claim C7: on an active `PersistentQVM`, `run_program_async` builds a
SubRequest whose payload is exactly the payload `run_program` sends (token,
derived addresses, configured seed, `None` simulation/allocation/noise),
wraps it with the asynchronous run-program tag, and returns a new `AsyncJob`
against that SubRequest and this session's transport, issuing only the
probe and create-job RPCs (no run and no blocking result fetch); executing
the SubRequest synchronously yields the identical region-to-values mapping
that `run_program` returns. -/
theorem run_program_async_refines_run_program
    (st : PersistentQVM) (srv dflt : Server) (tok : String) (seed : Option Int)
    (p : Program) (v : String)
    (hc : st.connection = some (some srv)) (ht : st.token = some tok)
    (hs : st.random_seed = some seed)
    (hv : srv.versionResp = .ok v) (hok : check_qvm_ng_version v = .ok ()) :
    qvm_ng_run_program_payload p tok none none
        (get_classical_addresses_from_program p) none none seed =
      ⟨"run-program",
       ⟨p, tok, none, none, get_classical_addresses_from_program p, none, none, seed⟩⟩ ∧
    st.run_program_async (.prog p) dflt =
      (.ok { connection := some (some srv), token := some srv.jobToken },
       [RPC.getVersionInfo,
        RPC.createJob (qvm_ng_run_program_payload p tok none none
          (get_classical_addresses_from_program p) none none seed)]) ∧
    st.run_program (.prog p) =
      (.ok (execSubRequestSync srv (qvm_ng_run_program_payload p tok none none
         (get_classical_addresses_from_program p) none none seed)),
       [RPC.runProgram
         ⟨p, tok, none, none, get_classical_addresses_from_program p, none, none, seed⟩]) := by
  refine ⟨rfl, ?_, ?_⟩ <;>
    simp [PersistentQVM.run_program_async, PersistentQVM.run_program,
      AsyncJob.init, AsyncJob.connect, AsyncJob.get_version_info,
      validate_job_sub_request, recognizedJobTypes, qvm_ng_run_program_payload,
      execSubRequestSync, hc, ht, hs, hv, hok]

theorem run_program_async_refines_run_program_witness :
    demoPQVM.connection = some (some demoServer) ∧
    demoPQVM.token = some ("qvm-token-1") ∧
    demoPQVM.random_seed = some none ∧
    demoServer.versionResp = .ok ("1.11.0") ∧
    check_qvm_ng_version ("1.11.0") = .ok () ∧
    (qvm_ng_run_program_payload demoProgram ("qvm-token-1") none none
        [("ro", [0, 1])] none none none =
      ⟨"run-program",
       ⟨demoProgram, "qvm-token-1", none, none, [("ro", [0, 1])], none, none, none⟩⟩ ∧
      demoPQVM.run_program_async (.prog demoProgram) demoServer =
        (.ok { connection := some (some demoServer), token := some ("job-token-1") },
         [RPC.getVersionInfo,
          RPC.createJob (qvm_ng_run_program_payload demoProgram ("qvm-token-1") none none
            [("ro", [0, 1])] none none none)]) ∧
      demoPQVM.run_program (.prog demoProgram) =
        (.ok (execSubRequestSync demoServer (qvm_ng_run_program_payload demoProgram
           ("qvm-token-1") none none [("ro", [0, 1])] none none none)),
         [RPC.runProgram
           ⟨demoProgram, "qvm-token-1", none, none, [("ro", [0, 1])], none, none, none⟩])) :=
  ⟨rfl, rfl, rfl, rfl, rfl,
   run_program_async_refines_run_program demoPQVM demoServer demoServer
     ("qvm-token-1") none demoProgram ("1.11.0") rfl rfl rfl rfl rfl⟩

/-- Complete case split of `AsyncJob.init`: a sub-request validation failure
(no state touched, no RPC), a connect failure (connection stored, token never
assigned, only the probe RPC), or full success (probe then create-job RPC,
token stored). -/
theorem asyncInit_trichotomy (sub : SubRequest) (conn2 : Option Server) (dflt2 : Server) :
    (AsyncJob.init sub conn2 dflt2 = (.error .validationError, {}, []) ∧
       validate_job_sub_request sub = .error .validationError) ∨
    (∃ e, AsyncJob.init sub conn2 dflt2 =
         (.error e, { connection := some (some (conn2.getD dflt2)), token := none },
          [RPC.getVersionInfo]) ∧
       validate_job_sub_request sub = .ok () ∧
       (((conn2.getD dflt2).versionResp = .error () ∧ e = .qvmNotRunning) ∨
        (∃ v, (conn2.getD dflt2).versionResp = .ok v ∧
           check_qvm_ng_version v = .error e))) ∨
    (∃ v, validate_job_sub_request sub = .ok () ∧
       (conn2.getD dflt2).versionResp = .ok v ∧ check_qvm_ng_version v = .ok () ∧
       AsyncJob.init sub conn2 dflt2 =
         (.ok (), { connection := some (some (conn2.getD dflt2)),
                    token := some (conn2.getD dflt2).jobToken },
          [RPC.getVersionInfo, RPC.createJob sub])) := by
  rcases hval : validate_job_sub_request sub with e | ⟨⟩
  · have he : e = .validationError := by
      unfold validate_job_sub_request at hval
      split at hval
      · cases hval
      · cases hval; rfl
    subst he
    exact Or.inl ⟨by simp [AsyncJob.init, hval], rfl⟩
  · rcases hv : (conn2.getD dflt2).versionResp with ⟨⟩ | v
    · refine Or.inr (Or.inl ⟨.qvmNotRunning, ?_, rfl, Or.inl ⟨rfl, rfl⟩⟩)
      simp [AsyncJob.init, AsyncJob.connect, AsyncJob.get_version_info, hval, hv]
    · rcases hck : check_qvm_ng_version v with e | ⟨⟩
      · refine Or.inr (Or.inl ⟨e, ?_, rfl, Or.inr ⟨v, rfl, hck⟩⟩)
        simp [AsyncJob.init, AsyncJob.connect, AsyncJob.get_version_info, hval, hv, hck]
      · refine Or.inr (Or.inr ⟨v, rfl, rfl, hck, ?_⟩)
        simp [AsyncJob.init, AsyncJob.connect, AsyncJob.get_version_info, hval, hv, hck]

/-- Complete case split of `PersistentQVM.init`: a validation or seed failure
(nothing connected, no RPC), a connect failure (connection stored, token
never assigned, only the probe RPC), or full success (probe then create-qvm
RPC, token stored). -/
theorem init_trichotomy (n : Int) (conn : Option Server) (sim alloc : String)
    (mn gn : Option (List Rat)) (seed : PySeed) (dflt : Server) :
    (∃ e st, PersistentQVM.init n conn sim alloc mn gn seed dflt = (.error e, st, []) ∧
       st.connection = none ∧ st.token = none ∧
       (validate_num_qubits n = .error e ∨
        validate_simulation_method sim = .error e ∨
        validate_allocation_method alloc = .error e ∨
        validate_noise_probabilities mn = .error e ∨
        validate_noise_probabilities gn = .error e ∨
        (e = .typeError ∧ (seed = .otherSeed ∨ ∃ i, seed = .intSeed i ∧ ¬0 ≤ i)))) ∨
    (∃ e st, PersistentQVM.init n conn sim alloc mn gn seed dflt =
         (.error e, st, [RPC.getVersionInfo]) ∧
       st.connection = some (some (conn.getD dflt)) ∧ st.token = none ∧
       validate_num_qubits n = .ok () ∧ validate_simulation_method sim = .ok () ∧
       validate_allocation_method alloc = .ok () ∧
       validate_noise_probabilities mn = .ok () ∧
       validate_noise_probabilities gn = .ok () ∧
       (((conn.getD dflt).versionResp = .error () ∧ e = .qvmNotRunning) ∨
        (∃ v, (conn.getD dflt).versionResp = .ok v ∧
           check_qvm_ng_version v = .error e))) ∨
    (∃ v st, (conn.getD dflt).versionResp = .ok v ∧ check_qvm_ng_version v = .ok () ∧
       PersistentQVM.init n conn sim alloc mn gn seed dflt =
         (.ok (), st, [RPC.getVersionInfo, RPC.createQvm sim alloc n mn gn]) ∧
       st.connection = some (some (conn.getD dflt)) ∧
       st.token = some (conn.getD dflt).qvmToken) := by
  rcases h1 : validate_num_qubits n with e | ⟨⟩
  · exact Or.inl ⟨e, {}, by simp [PersistentQVM.init, h1], rfl, rfl, Or.inl rfl⟩
  rcases h2 : validate_simulation_method sim with e | ⟨⟩
  · exact Or.inl ⟨e, {}, by simp [PersistentQVM.init, h1, h2], rfl, rfl,
      Or.inr (Or.inl rfl)⟩
  rcases h3 : validate_allocation_method alloc with e | ⟨⟩
  · exact Or.inl ⟨e, {}, by simp [PersistentQVM.init, h1, h2, h3], rfl, rfl,
      Or.inr (Or.inr (Or.inl rfl))⟩
  rcases h4 : validate_noise_probabilities mn with e | ⟨⟩
  · exact Or.inl ⟨e, {}, by simp [PersistentQVM.init, h1, h2, h3, h4], rfl, rfl,
      Or.inr (Or.inr (Or.inr (Or.inl rfl)))⟩
  rcases h5 : validate_noise_probabilities gn with e | ⟨⟩
  · exact Or.inl ⟨e, {}, by simp [PersistentQVM.init, h1, h2, h3, h4, h5], rfl, rfl,
      Or.inr (Or.inr (Or.inr (Or.inr (Or.inl rfl))))⟩
  have hfin : ∀ sv : Option Int,
      (∃ e st, PersistentQVM.initFinish
          { num_qubits := some n, simulation_method := some sim,
            allocation_method := some alloc, measurement_noise := some mn,
            gate_noise := some gn, random_seed := some sv }
          conn dflt sim alloc n mn gn = (.error e, st, [RPC.getVersionInfo]) ∧
        st.connection = some (some (conn.getD dflt)) ∧ st.token = none ∧
        (((conn.getD dflt).versionResp = .error () ∧ e = .qvmNotRunning) ∨
         (∃ v, (conn.getD dflt).versionResp = .ok v ∧
            check_qvm_ng_version v = .error e))) ∨
      (∃ v st, (conn.getD dflt).versionResp = .ok v ∧ check_qvm_ng_version v = .ok () ∧
        PersistentQVM.initFinish
          { num_qubits := some n, simulation_method := some sim,
            allocation_method := some alloc, measurement_noise := some mn,
            gate_noise := some gn, random_seed := some sv }
          conn dflt sim alloc n mn gn =
          (.ok (), st, [RPC.getVersionInfo, RPC.createQvm sim alloc n mn gn]) ∧
        st.connection = some (some (conn.getD dflt)) ∧
        st.token = some (conn.getD dflt).qvmToken) := by
    intro sv
    rcases hv : (conn.getD dflt).versionResp with ⟨⟩ | v
    · refine Or.inl ⟨.qvmNotRunning,
        { num_qubits := some n, simulation_method := some sim,
          allocation_method := some alloc, measurement_noise := some mn,
          gate_noise := some gn, random_seed := some sv,
          connection := some (some (conn.getD dflt)), token := none }, ?_, rfl, rfl,
        Or.inl ⟨rfl, rfl⟩⟩
      simp [PersistentQVM.initFinish, PersistentQVM.connect,
        PersistentQVM.get_version_info, hv]
    · rcases hck : check_qvm_ng_version v with e | ⟨⟩
      · refine Or.inl ⟨e,
          { num_qubits := some n, simulation_method := some sim,
            allocation_method := some alloc, measurement_noise := some mn,
            gate_noise := some gn, random_seed := some sv,
            connection := some (some (conn.getD dflt)), token := none }, ?_, rfl, rfl,
          Or.inr ⟨v, rfl, hck⟩⟩
        simp [PersistentQVM.initFinish, PersistentQVM.connect,
          PersistentQVM.get_version_info, hv, hck]
      · refine Or.inr ⟨v,
          { num_qubits := some n, simulation_method := some sim,
            allocation_method := some alloc, measurement_noise := some mn,
            gate_noise := some gn, random_seed := some sv,
            connection := some (some (conn.getD dflt)),
            token := some (conn.getD dflt).qvmToken }, rfl, hck, ?_, rfl, rfl⟩
        simp [PersistentQVM.initFinish, PersistentQVM.connect,
          PersistentQVM.get_version_info, hv, hck]
  rcases seed with _ | i | _
  · have hinit : PersistentQVM.init n conn sim alloc mn gn .nullSeed dflt =
        PersistentQVM.initFinish
          { num_qubits := some n, simulation_method := some sim,
            allocation_method := some alloc, measurement_noise := some mn,
            gate_noise := some gn, random_seed := some none }
          conn dflt sim alloc n mn gn := by
      simp [PersistentQVM.init, h1, h2, h3, h4, h5]
    rcases hfin none with ⟨e, st, heq, hc, ht, hd⟩ | ⟨v, st, hv, hck, heq, hc, ht⟩
    · exact Or.inr (Or.inl ⟨e, st, hinit.trans heq, hc, ht, rfl, rfl, rfl, rfl, rfl, hd⟩)
    · exact Or.inr (Or.inr ⟨v, st, hv, hck, hinit.trans heq, hc, ht⟩)
  · by_cases hi : 0 ≤ i
    · have hinit : PersistentQVM.init n conn sim alloc mn gn (.intSeed i) dflt =
          PersistentQVM.initFinish
            { num_qubits := some n, simulation_method := some sim,
              allocation_method := some alloc, measurement_noise := some mn,
              gate_noise := some gn, random_seed := some (some i) }
            conn dflt sim alloc n mn gn := by
        simp [PersistentQVM.init, h1, h2, h3, h4, h5, hi]
      rcases hfin (some i) with ⟨e, st, heq, hc, ht, hd⟩ | ⟨v, st, hv, hck, heq, hc, ht⟩
      · exact Or.inr (Or.inl ⟨e, st, hinit.trans heq, hc, ht, rfl, rfl, rfl, rfl, rfl, hd⟩)
      · exact Or.inr (Or.inr ⟨v, st, hv, hck, hinit.trans heq, hc, ht⟩)
    · refine Or.inl ⟨.typeError,
        { num_qubits := some n, simulation_method := some sim,
          allocation_method := some alloc, measurement_noise := some mn,
          gate_noise := some gn }, ?_, rfl, rfl,
        Or.inr (Or.inr (Or.inr (Or.inr (Or.inr ⟨rfl, Or.inr ⟨i, rfl, hi⟩⟩))))⟩
      simp [PersistentQVM.init, h1, h2, h3, h4, h5, hi]
  · refine Or.inl ⟨.typeError,
      { num_qubits := some n, simulation_method := some sim,
        allocation_method := some alloc, measurement_noise := some mn,
        gate_noise := some gn }, ?_, rfl, rfl,
      Or.inr (Or.inr (Or.inr (Or.inr (Or.inr ⟨rfl, Or.inl rfl⟩))))⟩
    simp [PersistentQVM.init, h1, h2, h3, h4, h5]

/-- Claim C4: whenever construction of a `PersistentQVM` fails (parameter
validation, bad random seed, unreachable server, or version-check failure),
the create-session RPC is never issued and the failed create leaves the
object without a token — never partially active. -/
theorem failed_create_issues_no_create_rpc
    (n : Int) (conn : Option Server) (sim alloc : String)
    (mn gn : Option (List Rat)) (seed : PySeed) (dflt : Server)
    (r : Except PyErr Unit) (st : PersistentQVM) (tr : List RPC)
    (h : PersistentQVM.init n conn sim alloc mn gn seed dflt = (r, st, tr))
    (hfail : r ≠ .ok ()) :
    tr.all (fun x => !x.isCreate) = true ∧ st.token = none := by
  rcases init_trichotomy n conn sim alloc mn gn seed dflt with
    ⟨e, st', heq, _, ht', _⟩ | ⟨e, st', heq, _, ht', _, _, _, _, _, _⟩ |
    ⟨v, st', _, _, heq, _, _⟩
  · rw [heq] at h
    simp only [Prod.mk.injEq] at h
    obtain ⟨rfl, rfl, rfl⟩ := h
    exact ⟨rfl, ht'⟩
  · rw [heq] at h
    simp only [Prod.mk.injEq] at h
    obtain ⟨rfl, rfl, rfl⟩ := h
    exact ⟨by simp [RPC.isCreate], ht'⟩
  · rw [heq] at h
    simp only [Prod.mk.injEq] at h
    obtain ⟨rfl, rfl, rfl⟩ := h
    exact absurd rfl hfail

theorem failed_create_issues_no_create_rpc_witness :
    ((PersistentQVM.init 0 (some demoServer) ("pure-state") ("native") none none .nullSeed
        demoServer).2.2).all (fun x => !x.isCreate) = true ∧
    (PersistentQVM.init 0 (some demoServer) ("pure-state") ("native") none none .nullSeed
        demoServer).2.1.token = none :=
  failed_create_issues_no_create_rpc 0 (some demoServer) ("pure-state") ("native")
    none none .nullSeed demoServer _ _ _ rfl (by simp)

/-- Claim C8: for both `PersistentQVM` and `AsyncJob` construction, the
version check runs before the token-issuing create RPC (a trace containing a
create RPC starts with the version probe and had a passing version check); a
connectivity failure of the probe surfaces as the distinct `QVMNotRunning`
error, not a version error; and a version-mismatch result always comes with
a create-free trace — never after resource creation. -/
theorem version_gate_before_create
    (n : Int) (conn : Option Server) (sim alloc : String)
    (mn gn : Option (List Rat)) (seed : PySeed) (dflt : Server)
    (r : Except PyErr Unit) (st : PersistentQVM) (tr : List RPC)
    (h : PersistentQVM.init n conn sim alloc mn gn seed dflt = (r, st, tr)) :
    (tr.any RPC.isCreate = true →
       r = .ok () ∧
       ∃ v, (conn.getD dflt).versionResp = .ok v ∧ check_qvm_ng_version v = .ok () ∧
         tr = [RPC.getVersionInfo, RPC.createQvm sim alloc n mn gn]) ∧
    (r = .error .qvmVersionMismatch → tr.any RPC.isCreate = false) ∧
    ((conn.getD dflt).versionResp = .error () →
       validate_num_qubits n = .ok () → validate_simulation_method sim = .ok () →
       validate_allocation_method alloc = .ok () →
       validate_noise_probabilities mn = .ok () →
       validate_noise_probabilities gn = .ok () →
       seed ≠ .otherSeed → (∀ i, seed = .intSeed i → 0 ≤ i) →
       r = .error .qvmNotRunning ∧ tr = [RPC.getVersionInfo]) ∧
    (∀ (sub : SubRequest) (conn2 : Option Server) (dflt2 : Server) (r2 : Except PyErr Unit)
       (j : AsyncJob) (tr2 : List RPC),
       AsyncJob.init sub conn2 dflt2 = (r2, j, tr2) →
       (tr2.any RPC.isCreate = true →
          r2 = .ok () ∧
          ∃ v, (conn2.getD dflt2).versionResp = .ok v ∧ check_qvm_ng_version v = .ok () ∧
            tr2 = [RPC.getVersionInfo, RPC.createJob sub]) ∧
       (r2 = .error .qvmVersionMismatch → tr2.any RPC.isCreate = false) ∧
       ((conn2.getD dflt2).versionResp = .error () →
          validate_job_sub_request sub = .ok () →
          r2 = .error .qvmNotRunning ∧ tr2 = [RPC.getVersionInfo])) := by
  refine ⟨?_, ?_, ?_, ?_⟩
  · intro hAny
    rcases init_trichotomy n conn sim alloc mn gn seed dflt with
      ⟨e, st', heq, _, _, _⟩ | ⟨e, st', heq, _, _, _, _, _, _, _, _⟩ |
      ⟨v, st', hv, hck, heq, _, _⟩
    · rw [heq] at h
      simp only [Prod.mk.injEq] at h
      obtain ⟨rfl, rfl, rfl⟩ := h
      simp at hAny
    · rw [heq] at h
      simp only [Prod.mk.injEq] at h
      obtain ⟨rfl, rfl, rfl⟩ := h
      simp [RPC.isCreate] at hAny
    · rw [heq] at h
      simp only [Prod.mk.injEq] at h
      obtain ⟨rfl, rfl, rfl⟩ := h
      exact ⟨rfl, v, hv, hck, rfl⟩
  · intro hr
    rcases init_trichotomy n conn sim alloc mn gn seed dflt with
      ⟨e, st', heq, _, _, _⟩ | ⟨e, st', heq, _, _, _, _, _, _, _, _⟩ |
      ⟨v, st', _, _, heq, _, _⟩
    · rw [heq] at h
      simp only [Prod.mk.injEq] at h
      obtain ⟨rfl, rfl, rfl⟩ := h
      rfl
    · rw [heq] at h
      simp only [Prod.mk.injEq] at h
      obtain ⟨rfl, rfl, rfl⟩ := h
      simp [RPC.isCreate]
    · rw [heq] at h
      simp only [Prod.mk.injEq] at h
      obtain ⟨rfl, rfl, rfl⟩ := h
      cases hr
  · intro hprobe hpv1 hpv2 hpv3 hpv4 hpv5 hseed1 hseed2
    rcases init_trichotomy n conn sim alloc mn gn seed dflt with
      ⟨e, st', heq, _, _, hd⟩ | ⟨e, st', heq, _, _, _, _, _, _, _, hd⟩ |
      ⟨v, st', hv, _, heq, _, _⟩
    · rcases hd with hx | hx | hx | hx | hx | ⟨_, hx⟩
      · rw [hpv1] at hx; cases hx
      · rw [hpv2] at hx; cases hx
      · rw [hpv3] at hx; cases hx
      · rw [hpv4] at hx; cases hx
      · rw [hpv5] at hx; cases hx
      · rcases hx with hso | ⟨i, hsi, hni⟩
        · exact absurd hso hseed1
        · exact absurd (hseed2 i hsi) hni
    · rcases hd with ⟨_, rfl⟩ | ⟨v, hvv, _⟩
      · rw [heq] at h
        simp only [Prod.mk.injEq] at h
        obtain ⟨rfl, rfl, rfl⟩ := h
        exact ⟨rfl, rfl⟩
      · rw [hprobe] at hvv; cases hvv
    · rw [hprobe] at hv; cases hv
  · intro sub conn2 dflt2 r2 j tr2 h2
    refine ⟨?_, ?_, ?_⟩
    · intro hAny
      rcases asyncInit_trichotomy sub conn2 dflt2 with
        ⟨heq, _⟩ | ⟨e, heq, _, _⟩ | ⟨v, _, hv, hck, heq⟩
      · rw [heq] at h2
        simp only [Prod.mk.injEq] at h2
        obtain ⟨rfl, rfl, rfl⟩ := h2
        simp at hAny
      · rw [heq] at h2
        simp only [Prod.mk.injEq] at h2
        obtain ⟨rfl, rfl, rfl⟩ := h2
        simp [RPC.isCreate] at hAny
      · rw [heq] at h2
        simp only [Prod.mk.injEq] at h2
        obtain ⟨rfl, rfl, rfl⟩ := h2
        exact ⟨rfl, v, hv, hck, rfl⟩
    · intro hr
      rcases asyncInit_trichotomy sub conn2 dflt2 with
        ⟨heq, _⟩ | ⟨e, heq, _, _⟩ | ⟨v, _, _, _, heq⟩
      · rw [heq] at h2
        simp only [Prod.mk.injEq] at h2
        obtain ⟨rfl, rfl, rfl⟩ := h2
        rfl
      · rw [heq] at h2
        simp only [Prod.mk.injEq] at h2
        obtain ⟨rfl, rfl, rfl⟩ := h2
        simp [RPC.isCreate]
      · rw [heq] at h2
        simp only [Prod.mk.injEq] at h2
        obtain ⟨rfl, rfl, rfl⟩ := h2
        cases hr
    · intro hprobe hval
      rcases asyncInit_trichotomy sub conn2 dflt2 with
        ⟨heq, hbad⟩ | ⟨e, heq, _, hd⟩ | ⟨v, _, hv, _, heq⟩
      · rw [hval] at hbad; cases hbad
      · rcases hd with ⟨_, rfl⟩ | ⟨v, hvv, _⟩
        · rw [heq] at h2
          simp only [Prod.mk.injEq] at h2
          obtain ⟨rfl, rfl, rfl⟩ := h2
          exact ⟨rfl, rfl⟩
        · rw [hprobe] at hvv; cases hvv
      · rw [hprobe] at hv; cases hv

theorem version_gate_before_create_witness :
    (PersistentQVM.init 2 (some downServer) ("pure-state") ("native") none none .nullSeed
        demoServer).1 = .error .qvmNotRunning ∧
    (PersistentQVM.init 2 (some downServer) ("pure-state") ("native") none none .nullSeed
        demoServer).2.2 = [RPC.getVersionInfo] :=
  (version_gate_before_create 2 (some downServer) ("pure-state") ("native") none none
      .nullSeed demoServer _ _ _ rfl).2.2.1 rfl rfl rfl rfl rfl rfl
    (by simp) (fun i hi => nomatch hi)

/-- Claim C10: when construction of a `PersistentQVM` (or `AsyncJob`) fails
after the connection attribute is stored but before the token attribute is
assigned — i.e. when the version probe or the version check raises — any
subsequent `close` (including the one `__del__` invokes) reads the
never-assigned token attribute and itself fails with an attribute error
rather than being a safe no-op. -/
theorem close_after_failed_connect_attribute_error
    (n : Int) (conn : Option Server) (sim alloc : String)
    (mn gn : Option (List Rat)) (seed : PySeed) (dflt : Server)
    (r : Except PyErr Unit) (st : PersistentQVM) (tr : List RPC)
    (hv1 : validate_num_qubits n = .ok ())
    (hv2 : validate_simulation_method sim = .ok ())
    (hv3 : validate_allocation_method alloc = .ok ())
    (hv4 : validate_noise_probabilities mn = .ok ())
    (hv5 : validate_noise_probabilities gn = .ok ())
    (hseed : seed ≠ .otherSeed ∧ ∀ i, seed = .intSeed i → 0 ≤ i)
    (hfail : (conn.getD dflt).versionResp = .error () ∨
       ∃ v e, (conn.getD dflt).versionResp = .ok v ∧ check_qvm_ng_version v = .error e)
    (h : PersistentQVM.init n conn sim alloc mn gn seed dflt = (r, st, tr)) :
    (∃ e, r = .error e) ∧
    st.connection = some (some (conn.getD dflt)) ∧ st.token = none ∧
    st.close = (.error .attributeError, st, []) ∧
    (∀ (sub : SubRequest) (conn2 : Option Server) (dflt2 : Server) (r2 : Except PyErr Unit)
       (j : AsyncJob) (tr2 : List RPC),
       validate_job_sub_request sub = .ok () →
       ((conn2.getD dflt2).versionResp = .error () ∨
         ∃ v e, (conn2.getD dflt2).versionResp = .ok v ∧
           check_qvm_ng_version v = .error e) →
       AsyncJob.init sub conn2 dflt2 = (r2, j, tr2) →
       (∃ e, r2 = .error e) ∧ j.connection = some (some (conn2.getD dflt2)) ∧
       j.token = none ∧ j.close = (.error .attributeError, j, [])) := by
  have hmain : (∃ e, r = .error e) ∧
      st.connection = some (some (conn.getD dflt)) ∧ st.token = none ∧
      st.close = (.error .attributeError, st, []) := by
    rcases init_trichotomy n conn sim alloc mn gn seed dflt with
      ⟨e, st', heq, _, _, hd⟩ | ⟨e, st', heq, hc', ht', _, _, _, _, _, _⟩ |
      ⟨v, st', hv, hck, heq, _, _⟩
    · rcases hd with hx | hx | hx | hx | hx | ⟨_, hx⟩
      · rw [hv1] at hx; cases hx
      · rw [hv2] at hx; cases hx
      · rw [hv3] at hx; cases hx
      · rw [hv4] at hx; cases hx
      · rw [hv5] at hx; cases hx
      · rcases hx with hso | ⟨i, hsi, hni⟩
        · exact absurd hso hseed.1
        · exact absurd (hseed.2 i hsi) hni
    · rw [heq] at h
      simp only [Prod.mk.injEq] at h
      obtain ⟨rfl, rfl, rfl⟩ := h
      exact ⟨⟨e, rfl⟩, hc', ht', by simp [PersistentQVM.close, hc', ht']⟩
    · rcases hfail with hp | ⟨v', e', hvv, hcc⟩
      · rw [hp] at hv; cases hv
      · rw [hvv] at hv
        injection hv with hv
        subst hv
        rw [hck] at hcc; cases hcc
  refine ⟨hmain.1, hmain.2.1, hmain.2.2.1, hmain.2.2.2, ?_⟩
  intro sub conn2 dflt2 r2 j tr2 hval hfail2 h2
  rcases asyncInit_trichotomy sub conn2 dflt2 with
    ⟨heq, hbad⟩ | ⟨e, heq, _, _⟩ | ⟨v, _, hv, hck, heq⟩
  · rw [hval] at hbad; cases hbad
  · rw [heq] at h2
    simp only [Prod.mk.injEq] at h2
    obtain ⟨rfl, rfl, rfl⟩ := h2
    exact ⟨⟨e, rfl⟩, rfl, rfl, by simp [AsyncJob.close]⟩
  · rcases hfail2 with hp | ⟨v', e', hvv, hcc⟩
    · rw [hp] at hv; cases hv
    · rw [hvv] at hv
      injection hv with hv
      subst hv
      rw [hck] at hcc; cases hcc

theorem close_after_failed_connect_attribute_error_witness :
    (∃ e, (PersistentQVM.init 2 (some downServer) ("pure-state") ("native") none none
        .nullSeed demoServer).1 = .error e) ∧
    (PersistentQVM.init 2 (some downServer) ("pure-state") ("native") none none
        .nullSeed demoServer).2.1.connection = some (some downServer) ∧
    (PersistentQVM.init 2 (some downServer) ("pure-state") ("native") none none
        .nullSeed demoServer).2.1.token = none ∧
    (PersistentQVM.init 2 (some downServer) ("pure-state") ("native") none none
        .nullSeed demoServer).2.1.close =
      (.error .attributeError,
       (PersistentQVM.init 2 (some downServer) ("pure-state") ("native") none none
         .nullSeed demoServer).2.1, []) ∧
    (∀ (sub : SubRequest) (conn2 : Option Server) (dflt2 : Server) (r2 : Except PyErr Unit)
       (j : AsyncJob) (tr2 : List RPC),
       validate_job_sub_request sub = .ok () →
       ((conn2.getD dflt2).versionResp = .error () ∨
         ∃ v e, (conn2.getD dflt2).versionResp = .ok v ∧
           check_qvm_ng_version v = .error e) →
       AsyncJob.init sub conn2 dflt2 = (r2, j, tr2) →
       (∃ e, r2 = .error e) ∧ j.connection = some (some (conn2.getD dflt2)) ∧
       j.token = none ∧ j.close = (.error .attributeError, j, [])) :=
  close_after_failed_connect_attribute_error 2 (some downServer) ("pure-state") ("native")
    none none .nullSeed demoServer _ _ _ rfl rfl rfl rfl rfl
    ⟨by simp, fun i hi => nomatch hi⟩ (Or.inl rfl) rfl
